import Mathlib

/-!
# Verification of `phonemizer/backend/espeak/api.py` (class `EspeakAPI`)

A shallow embedding of the low-level espeak-ng bindings of the phonemizer
project.  The Python module wraps a native shared library that is a
singleton (global mutable state); the wrapper isolates instances by copying
the shared-library file into a private temporary directory and loading the
copy as an independent module.

The embedding models, faithfully to the Python source:
  * the filesystem (regular files with opaque byte contents, symbolic
    links, temporary directories),
  * the dynamic loader (`ctypes.cdll.LoadLibrary` / `dlopen`): loads are
    deduplicated per file, modules are never unloaded by `ctypes`,
  * `pathlib.Path.resolve()` (non-strict: total, always absolute,
    follows symbolic links),
  * `shutil.copy(..., follow_symlinks=False)`,
  * `tempfile.mkdtemp` / `shutil.rmtree`,
  * `weakref.finalize(self, self._terminate)` — importantly, the callback
    registered by the source is the *bound method* `self._terminate`,
    which owns a strong reference to the instance,
  * the native espeak global state reached through a loaded module
    (initialized / terminated flags, the current voice), and
  * `ctypes` argument marshaling against a declared `argtypes` list
    (needed for `synthetize`, whose `argtypes` list in the source has 7
    entries while 8 arguments are passed).

Every construct is executable so that concrete runs can be evaluated by
`rfl` / `decide`.
-/

/-- The value of `sys.platform` as far as the source branches on it. -/
inductive Platform where
  | win32
  | posix
deriving DecidableEq, Repr

/-- Filesystem paths.  Temporary directories created by `tempfile.mkdtemp`
are uniquely numbered (`mkdtemp` guarantees a fresh name); other absolute
paths are a directory component list plus a file name; `rel` is a
non-absolute name such as a bare library name handed to the loader. -/
inductive FsPath where
  | abs (dirs : List String) (fname : String)
  | tmpdir (id : Nat)
  | tmpfile (id : Nat) (fname : String)
  | rel (s : String)
deriving DecidableEq, Repr

/-- `PurePath.name`: the final path component. -/
def FsPath.name : FsPath → String
  | .abs _ f => f
  | .tmpdir _ => ""
  | .tmpfile _ f => f
  | .rel s => s

/-- Whether a path is absolute (`rel` is the only non-absolute form). -/
def FsPath.isAbsolute : FsPath → Bool
  | .rel _ => false
  | _ => true

/-- A directory entry: a regular file with opaque contents (a blob id
standing for the byte string) or a symbolic link. -/
inductive FileKind where
  | regular (content : Nat)
  | symlink (target : FsPath)
deriving DecidableEq, Repr

/-- Association-list lookup of a path among the files. -/
def lookupFiles : List (FsPath × FileKind) → FsPath → Option FileKind
  | [], _ => none
  | e :: es, p => if e.1 = p then some e.2 else lookupFiles es p

/-- The filesystem: files plus the set of live temporary directories. -/
structure Fs where
  files : List (FsPath × FileKind)
  tmpdirs : List Nat
deriving Repr

def Fs.lookup (fs : Fs) (p : FsPath) : Option FileKind :=
  lookupFiles fs.files p

/-- Chase symbolic links until a regular file is found (bounded by fuel);
returns the path of the regular file reached, `none` on a dangling link,
a missing file, or fuel exhaustion (cyclic links). -/
def Fs.resolveAux : Nat → Fs → FsPath → Option FsPath
  | 0, _, _ => none
  | fuel + 1, fs, p =>
    match fs.lookup p with
    | some (.symlink t) => Fs.resolveAux fuel fs t
    | some (.regular _) => some p
    | none => none

/-- Make a path absolute without touching the filesystem (the way
`Path.resolve()` anchors a relative path at the working directory). -/
def FsPath.absolutize : FsPath → FsPath
  | .rel s => .abs [] s
  | p => p

/-- `pathlib.Path.resolve()` (non-strict, the default since Python 3.6):
total, never raises; follows symlinks when the file exists, otherwise
still returns an absolutized path. -/
def Fs.pyResolve (fs : Fs) (p : FsPath) : FsPath :=
  match Fs.resolveAux (fs.files.length + 1) fs p with
  | some q => FsPath.absolutize q
  | none => FsPath.absolutize p

/-- `shutil.copy(src, dst, follow_symlinks=False)`: when `src` is a
symlink and `follow_symlinks` is false, a symlink is created at `dst`
(`os.symlink(os.readlink(src), dst)`); when `src` is a regular file its
bytes are copied; a missing `src` raises `FileNotFoundError` (an
`OSError`), modelled by `none`. -/
def shutilCopy (fs : Fs) (src dst : FsPath) (followSymlinks : Bool) : Option Fs :=
  match fs.lookup src with
  | some (.symlink t) =>
      if followSymlinks then
        match Fs.resolveAux (fs.files.length + 1) fs t with
        | some q =>
          match fs.lookup q with
          | some k => some { fs with files := (dst, k) :: fs.files }
          | none => none
        | none => none
      else
        some { fs with files := (dst, .symlink t) :: fs.files }
  | some (.regular c) => some { fs with files := (dst, .regular c) :: fs.files }
  | none => none

/-- A file survives `rmtree` of tempdir `tid` iff it is not below it. -/
def keepAfterRmtree (tid : Nat) (e : FsPath × FileKind) : Bool :=
  match e.1 with
  | .tmpfile i _ => decide (i ≠ tid)
  | _ => true

/-- `shutil.rmtree`: recursively removes the temp directory `tid` and
everything below it. -/
def rmtree (fs : Fs) (tid : Nat) : Fs :=
  { files := fs.files.filter (keepAfterRmtree tid)
    tmpdirs := fs.tmpdirs.filter fun i => decide (i ≠ tid) }

def Fs.tmpdirExists (fs : Fs) (tid : Nat) : Bool :=
  fs.tmpdirs.contains tid

/-- The global state of one loaded espeak module (the native library's
global variables, private to that module instance). -/
structure EspeakState where
  initialized : Bool
  terminated : Bool
  /-- the voice record that `espeak_GetCurrentVoice` returns a pointer
  to; `none` models a NULL pointer. -/
  voice : Option String
deriving DecidableEq, Repr

def EspeakState.fresh : EspeakState := ⟨false, false, none⟩

/-- One module loaded by the dynamic loader.  `path` is the file the
loader opened (used for load deduplication, cf. `man dlopen`);
`loadName` is the `_name` attribute of the `ctypes.CDLL` object (the
argument given to `LoadLibrary`). -/
structure DlModule where
  id : Nat
  path : FsPath
  loadName : FsPath
  state : EspeakState
deriving DecidableEq, Repr

/-- The callback registered with `weakref.finalize`.  The source
registers the *bound method* `self._terminate`; a bound method owns its
`__self__`, i.e. a strong reference to the instance.  The alternative
(what the spec describes) would be a plain function over captured values
holding no reference to the instance. -/
inductive FinalizeCallback where
  /-- `self._terminate`: a bound method of the instance identified by its
  temp-directory id (instances are in bijection with their tempdirs). -/
  | boundMethod (inst : Nat)
  /-- a callback capturing only a library handle and a tempdir id. -/
  | captured (lib : Option Nat) (tempdir : Nat)
deriving DecidableEq, Repr

/-- Does the registered callback keep the wrapper instance strongly
reachable (preventing it from ever becoming unreachable)? -/
def FinalizeCallback.capturesInstance : FinalizeCallback → Bool
  | .boundMethod _ => true
  | .captured _ _ => false

/-- Foreign calls actually issued to a loaded espeak module. -/
inductive FFICall where
  | initCall (output : Nat) (buflength : Nat) (pathIsNull : Bool) (options : Nat)
  | terminate
  | info
  | listVoices
  | setVoiceByName (name : String)
  | getCurrentVoice
  | textToPhonemes (textMode : Int) (phonemesMode : Int)
  | setPhonemeTrace (mode : Int)
  | synth (size : Int) (position : Nat) (positionType : Nat)
      (endPosition : Nat) (flags : Int)
deriving DecidableEq, Repr

/-- Python-level errors the module can raise.  The three `RuntimeError`
raise sites of the source are distinguished by their messages; `osError`
is an uncaught `OSError`, `argumentError` a `ctypes.ArgumentError`,
`nullPointerAccess` the `ValueError` raised by `.contents` on a NULL
pointer, `attributeError` an attribute access on `None`. -/
inductive PyError where
  | loadError
  | initializationError
  | pathResolutionError
  | osError
  | argumentError
  | nullPointerAccess
  | attributeError
deriving DecidableEq, Repr

/-- Result of a native call that did reach the foreign function: a
defined value, or undefined behavior (the C library was called after
`espeak_Terminate`; the wrapper does nothing to prevent this). -/
inductive NativeRet (α : Type) where
  | val (a : α)
  | undef
deriving DecidableEq, Repr

/-- A Python value handed to a `ctypes` foreign function. -/
inductive PyArg where
  | pyNone
  | pyInt (n : Int)
  | pyBuf (id : Nat)
deriving DecidableEq, Repr

/-- The `ctypes` C types occurring in the source's `argtypes` lists. -/
inductive CType where
  | void_p
  | size_t
  | uint
  | int
  | pointer_uint
  | char_p
deriving DecidableEq, Repr

/-- `ctypes` argument conversion against a declared argtype
(`argtype.from_param`): `c_void_p` accepts `None`, integers and buffers;
the integer types accept Python ints; a `POINTER(c_uint)` accepts `None`
(NULL) but *rejects* a plain int with
`TypeError: expected LP_c_uint instance instead of int`;
`c_char_p` accepts `None` and byte buffers. -/
def ctypesAccepts : CType → PyArg → Bool
  | .void_p, _ => true
  | .size_t, .pyInt _ => true
  | .uint, .pyInt _ => true
  | .int, .pyInt _ => true
  | .pointer_uint, .pyNone => true
  | .char_p, .pyNone => true
  | .char_p, .pyBuf _ => true
  | _, _ => false

/-- Default conversion for arguments beyond the declared `argtypes`
(allowed by `ctypes`): `None`, ints and buffers all convert. -/
def ctypesDefaultAccepts : PyArg → Bool
  | _ => true

/-- Marshal an argument list against a declared `argtypes` list; extra
arguments use the default conversion, missing arguments are an error. -/
def marshalOk : List CType → List PyArg → Bool
  | t :: ts, a :: as => ctypesAccepts t a && marshalOk ts as
  | [], as => as.all ctypesDefaultAccepts
  | _ :: _, [] => false

/-- The `argtypes` list assigned in `EspeakAPI.synthetize` — 7 entries,
transcribed from the source (note: the `c_uint` for the `flags`
parameter of `espeak_Synth` is absent, so `POINTER(c_uint)` sits at
position 5 where the call site passes `mode`). -/
def synthArgtypes : List CType :=
  [.void_p, .size_t, .uint, .int, .uint, .pointer_uint, .void_p]

/-- The whole interpreter/process state. -/
structure World where
  fs : Fs
  /-- counter backing `tempfile.mkdtemp` uniqueness. -/
  nextTmp : Nat
  /-- counter for fresh dynamic-loader module handles. -/
  nextMod : Nat
  modules : List DlModule
  /-- the `weakref.finalize` registry (kept alive until called or
  interpreter exit). -/
  finalizers : List FinalizeCallback
  /-- `EspeakAPI` object heap: instance id (= its tempdir id) ↦ the
  current value of its `_library` field (`none` = Python `None`). -/
  objects : List (Nat × Option Nat)
  /-- trace of foreign calls issued so far. -/
  trace : List FFICall
  -- Environment / native behavior configuration (constant during a run):
  /-- what the dynamic loader finds for a library name (`None` = `OSError`). -/
  loaderFind : String → Option FsPath
  /-- whether `dlinfo.DLInfo(handle).path` succeeds on this system. -/
  dlinfoOk : Bool
  /-- the value `espeak_Initialize` returns (sample rate, or ≤ 0 on failure). -/
  initRet : Int
  /-- the value `espeak_Terminate` returns (ignored by the source). -/
  termRet : Int
  infoVersion : String
  infoData : String
  voicesData : List String
  phonemesData : Option String
  synthRet : Int

def World.pushTrace (w : World) (c : FFICall) : World :=
  { w with trace := w.trace ++ [c] }

/-- Find a loaded module by handle. -/
def World.findMod (w : World) (mid : Nat) : Option DlModule :=
  w.modules.find? fun m => m.id = mid

/-- The espeak global state behind handle `mid` (instances only ever hold
handles of loaded modules — `ctypes` never unloads — so the default
branch is unreachable for states arising from the API). -/
def World.modState (w : World) (mid : Nat) : EspeakState :=
  match w.findMod mid with
  | some m => m.state
  | none => EspeakState.fresh

def World.updateMod (w : World) (mid : Nat) (f : EspeakState → EspeakState) : World :=
  { w with modules := w.modules.map fun m =>
      if m.id = mid then { m with state := f m.state } else m }

/-- The `_library` field of instance `tid` (`none` both for `None` and
for a nonexistent instance). -/
def World.objLib (w : World) (tid : Nat) : Option Nat :=
  match w.objects.find? (fun e => e.1 = tid) with
  | some e => e.2
  | none => none

def World.setObjLib (w : World) (tid : Nat) (lib : Option Nat) : World :=
  { w with objects := (tid, lib) :: w.objects.filter fun e => decide (e.1 ≠ tid) }

/-- `ctypes.cdll.LoadLibrary` on a concrete path: `dlopen` returns the
existing module when the same file is already loaded (cf. the source's
comment citing `man dlopen`), otherwise opens the file (following
symlinks) and creates a fresh module; a file that cannot be opened is an
`OSError`. -/
def loadLibraryAt (w : World) (p : FsPath) (asName : FsPath) :
    Except PyError (DlModule × World) :=
  match w.modules.find? (fun m => m.path = p) with
  | some m => .ok (m, w)
  | none =>
    match Fs.resolveAux (w.fs.files.length + 1) w.fs p with
    | some _ =>
      .ok (⟨w.nextMod, p, asName, EspeakState.fresh⟩,
        { w with
          nextMod := w.nextMod + 1
          modules := ⟨w.nextMod, p, asName, EspeakState.fresh⟩ :: w.modules })
    | none => .error .osError

/-- `ctypes.cdll.LoadLibrary` on a name string: the loader searches for
the named library first. -/
def loadLibraryByName (w : World) (name : String) : Except PyError (DlModule × World) :=
  match w.loaderFind name with
  | some p => loadLibraryAt w p (.rel name)
  | none => .error .osError

/-- `dlinfo.DLInfo(handle).path`: the loaded-object path recorded by the
dynamic linker, when the introspection works on this system. -/
def dlinfoPath (w : World) (m : DlModule) : Option FsPath :=
  if w.dlinfoOk then some m.path else none

/-- `EspeakAPI._shared_library_path`: on Windows, resolve the handle's
`_name` field (`Path(library._name).resolve()`, no exception handling on
this branch); on Linux/MacOS, introspect the dynamic linker via `dlinfo`
and resolve the result, turning any failure into the `RuntimeError`
"failed to retrieve the path ..." (modelled `pathResolutionError`). -/
def sharedLibraryPath (platform : Platform) (w : World) (m : DlModule) :
    Except PyError FsPath :=
  match platform with
  | .win32 => .ok (w.fs.pyResolve m.loadName)
  | .posix =>
    match dlinfoPath w m with
    | some p => .ok (w.fs.pyResolve p)
    | none => .error .pathResolutionError

/-- `espeak_Initialize(0x02, 0, None, 0)`: traced with its fixed
arguments (`0x02` = `AUDIO_OUTPUT_SYNCHRONOUS`); returns the
environment's configured status and marks the module initialized. -/
def callEspeakInit (w : World) (mid : Nat) : Int × World :=
  let w := w.pushTrace (.initCall 2 0 true 0)
  let w := w.updateMod mid fun st => { st with initialized := true }
  (w.initRet, w)

/-- `espeak_Terminate()`: traced; marks the module terminated; its status
code is returned (and ignored by the caller in the source). -/
def callTerminate (w : World) (mid : Nat) : Int × World :=
  let w := w.pushTrace .terminate
  let w := w.updateMod mid fun st => { st with terminated := true }
  (w.termRet, w)

/-- An `EspeakAPI` wrapper instance as handed back to the caller:
`objId` identifies the object on the heap (and equals its private
tempdir id); `libraryPath` is `self._library_path`, the resolved path of
the original system library. -/
structure EspeakAPI where
  objId : Nat
  libraryPath : FsPath
deriving DecidableEq, Repr

/-- `EspeakAPI.__init__(self, library)`, line by line:
`self._library = None`; `self._tempdir = tempfile.mkdtemp()`;
`weakref.finalize(self, self._terminate)` (the bound method!);
then inside `try`: transient `LoadLibrary(library)` and
`_shared_library_path`, with `except OSError` → `RuntimeError`
"failed to load espeak library" (`loadError`); the `RuntimeError` of the
posix path-resolution branch is not an `OSError` and propagates as is;
`del espeak` unloads nothing (`ctypes` keeps the module);
`shutil.copy(library_path, tempdir/name, follow_symlinks=False)` and the
second `LoadLibrary` are outside the `try` (their `OSError`s propagate
raw); `self._library` is assigned *before* the `espeak_Initialize`
check; a non-positive status raises `RuntimeError`
"failed to initialize espeak shared library" (`initializationError`). -/
def espeakAPIInit (platform : Platform) (library : String) (w : World) :
    (Except PyError EspeakAPI) × World :=
  -- self._library = None; self._tempdir = tempfile.mkdtemp()
  let tid := w.nextTmp
  let w := { w with
    nextTmp := tid + 1
    fs := { w.fs with tmpdirs := tid :: w.fs.tmpdirs } }
  let w := w.setObjLib tid none
  -- weakref.finalize(self, self._terminate)
  let w := { w with finalizers := FinalizeCallback.boundMethod tid :: w.finalizers }
  -- try: espeak = LoadLibrary(library); library_path = _shared_library_path(espeak)
  match loadLibraryByName w library with
  | .error _ => (.error .loadError, w)   -- except OSError: raise RuntimeError(... load ...)
  | .ok (m, w) =>
    match sharedLibraryPath platform w m with
    | .error e => (.error e, w)          -- RuntimeError, not OSError: propagates
    | .ok libraryPath =>
      -- del espeak (no dlclose); espeak_copy = Path(tempdir) / library_path.name
      let espeakCopy := FsPath.tmpfile tid libraryPath.name
      match shutilCopy w.fs libraryPath espeakCopy false with
      | none => (.error .osError, w)     -- uncaught OSError from shutil.copy
      | some fs2 =>
        let w := { w with fs := fs2 }
        -- self._library = ctypes.cdll.LoadLibrary(espeak_copy)
        match loadLibraryAt w espeakCopy espeakCopy with
        | .error e => (.error e, w)      -- uncaught OSError
        | .ok (m2, w) =>
          let w := w.setObjLib tid (some m2.id)
          -- if self._library.espeak_Initialize(0x02, 0, None, 0) <= 0: raise
          let (ret, w) := callEspeakInit w m2.id
          if ret ≤ 0 then
            (.error .initializationError, w)
          else
            (.ok ⟨tid, libraryPath⟩, w)

/-- `EspeakAPI._terminate(self)`: `if self._library:` call
`espeak_Terminate()` (status ignored); then `shutil.rmtree(self._tempdir)`.
Total — no error can escape this path in the embedding, mirroring that
the native call communicates failure through a status code only. -/
def espeakAPITerminate (w : World) (tid : Nat) : World :=
  let w :=
    match w.objLib tid with
    | some mid => (callTerminate w mid).2
    | none => w
  { w with fs := rmtree w.fs tid }

/-- Running a registered finalize callback (what `weakref.finalize` does
at collection or interpreter exit). -/
def runFinalizeCallback (w : World) : FinalizeCallback → World
  | .boundMethod tid => espeakAPITerminate w tid
  | .captured lib tid =>
    let w :=
      match lib with
      | some mid => (callTerminate w mid).2
      | none => w
    { w with fs := rmtree w.fs tid }

/-- Is the instance `tid` strongly reachable from the `weakref.finalize`
registry (which the `weakref` module keeps alive until the callback runs
or the program exits)? -/
def instanceReachableFromRegistry (w : World) (tid : Nat) : Bool :=
  w.finalizers.any fun f =>
    match f with
    | .boundMethod t => decide (t = tid)
    | .captured _ _ => false

/-! ## The low-level call surface (`EspeakAPI` methods)

Each method reads `self._library`; when that is `None` (a
partially-constructed instance), the attribute access
`None.espeak_...` raises `AttributeError`.  Otherwise the foreign
function is invoked — the source performs no liveness check whatsoever,
so a call after `espeak_Terminate` reaches the native library and its
behavior is undefined (`NativeRet.undef`). -/

/-- `EspeakAPI.info(self)`: `version = f_info(ctypes.byref(data_path))`,
returns `(version, data_path.value)`. -/
def EspeakAPI.info (w : World) (tid : Nat) :
    (Except PyError (NativeRet (String × String))) × World :=
  match w.objLib tid with
  | none => (.error .attributeError, w)
  | some mid =>
    let w := w.pushTrace .info
    if (w.modState mid).terminated then (.ok .undef, w)
    else (.ok (.val (w.infoVersion, w.infoData)), w)

/-- `EspeakAPI.list_voices(self, name)`: forwards the filter and returns
the NULL-terminated array of voice pointers produced by the native
library (borrowed memory, modelled by the configured voice list). -/
def EspeakAPI.list_voices (w : World) (tid : Nat) (_name : Option String) :
    (Except PyError (NativeRet (List String))) × World :=
  match w.objLib tid with
  | none => (.error .attributeError, w)
  | some mid =>
    let w := w.pushTrace .listVoices
    if (w.modState mid).terminated then (.ok .undef, w)
    else (.ok (.val w.voicesData), w)

/-- `EspeakAPI.set_voice_by_name(self, name)`: forwards the name to
`espeak_SetVoiceByName` and returns its status code; the native call
stores the voice in the module's global state. -/
def EspeakAPI.set_voice_by_name (w : World) (tid : Nat) (name : String) :
    (Except PyError (NativeRet Int)) × World :=
  match w.objLib tid with
  | none => (.error .attributeError, w)
  | some mid =>
    let w := w.pushTrace (.setVoiceByName name)
    if (w.modState mid).terminated then (.ok .undef, w)
    else
      let w := w.updateMod mid fun st => { st with voice := some name }
      (.ok (.val 0), w)

/-- `EspeakAPI.get_current_voice(self)`: calls
`espeak_GetCurrentVoice` and returns `pointer.contents` — an
unconditional dereference; when the native function returns NULL,
`.contents` raises `ValueError: NULL pointer access`. -/
def EspeakAPI.get_current_voice (w : World) (tid : Nat) :
    (Except PyError (NativeRet String)) × World :=
  match w.objLib tid with
  | none => (.error .attributeError, w)
  | some mid =>
    let w := w.pushTrace .getCurrentVoice
    if (w.modState mid).terminated then (.ok .undef, w)
    else
      match (w.modState mid).voice with
      | none => (.error .nullPointerAccess, w)
      | some v => (.ok (.val v), w)

/-- `EspeakAPI.text_to_phonemes(self, text_ptr, text_mode,
phonemes_mode)`: forwards to `espeak_TextToPhonemes`, returning the
borrowed phoneme string (or `None`). -/
def EspeakAPI.text_to_phonemes (w : World) (tid : Nat)
    (_textPtr : PyArg) (textMode phonemesMode : Int) :
    (Except PyError (NativeRet (Option String))) × World :=
  match w.objLib tid with
  | none => (.error .attributeError, w)
  | some mid =>
    let w := w.pushTrace (.textToPhonemes textMode phonemesMode)
    if (w.modState mid).terminated then (.ok .undef, w)
    else (.ok (.val w.phonemesData), w)

/-- `EspeakAPI.set_phoneme_trace(self, mode, file_pointer)`: forwards to
`espeak_SetPhonemeTrace`; no return value. -/
def EspeakAPI.set_phoneme_trace (w : World) (tid : Nat)
    (mode : Int) (_filePointer : PyArg) :
    (Except PyError (NativeRet Unit)) × World :=
  match w.objLib tid with
  | none => (.error .attributeError, w)
  | some mid =>
    let w := w.pushTrace (.setPhonemeTrace mode)
    if (w.modState mid).terminated then (.ok .undef, w)
    else (.ok (.val ()), w)

/-- `EspeakAPI.synthetize(self, text, size, mode)`: assigns the 7-entry
`argtypes` list `synthArgtypes` to `espeak_Synth` and then calls
`f_synthetize(text, size, 0, 1, 0, mode, None, None)` — 8 arguments.
`ctypes` marshals each argument against the declared argtype (extras by
the default conversion) *before* any foreign call; a conversion failure
raises `ctypes.ArgumentError` and the native entry point is never
reached.  When marshaling succeeds the native `espeak_Synth` runs with
position 0, position type 1, end position 0, and whatever landed in the
flags slot, and its status is returned. -/
def EspeakAPI.synthetize (w : World) (tid : Nat)
    (text : PyArg) (size : Int) (mode : PyArg) :
    (Except PyError (NativeRet Int)) × World :=
  match w.objLib tid with
  | none => (.error .attributeError, w)
  | some mid =>
    let args : List PyArg :=
      [text, .pyInt size, .pyInt 0, .pyInt 1, .pyInt 0, mode, .pyNone, .pyNone]
    if marshalOk synthArgtypes args then
      -- only reachable with `mode` acceptable to `POINTER(c_uint)`,
      -- i.e. `None`, which is NULL = 0 in the flags slot at the ABI level
      let flagsVal : Int := match mode with | .pyInt n => n | _ => 0
      let w := w.pushTrace (.synth size 0 1 0 flagsVal)
      if (w.modState mid).terminated then (.ok .undef, w)
      else (.ok (.val w.synthRet), w)
    else
      (.error .argumentError, w)

/-! ## Worlds for runs -/

/-- A freshly started interpreter/process: no temp directories, no
loaded modules, no finalizers, empty trace; the environment (files on
disk, loader search, `dlinfo` availability, native return values) is
given. -/
def startWorld (files : List (FsPath × FileKind))
    (find : String → Option FsPath) (dlOk : Bool) (initRet termRet : Int) :
    World :=
  { fs := ⟨files, []⟩
    nextTmp := 0
    nextMod := 0
    modules := []
    finalizers := []
    objects := []
    trace := []
    loaderFind := find
    dlinfoOk := dlOk
    initRet := initRet
    termRet := termRet
    infoVersion := "1.51"
    infoData := "espeak-ng-data"
    voicesData := ["en", "fr"]
    phonemesData := some "phonemes"
    synthRet := 0 }

/-- A concrete Linux system for witnesses: `libespeak-ng.so` is a symlink
to the real `libespeak-ng.so.1.1.51`. -/
def demoLibReal : FsPath := FsPath.abs ["usr", "lib"] "libespeak-ng.so.1.1.51"

def demoLibLink : FsPath := FsPath.abs ["usr", "lib"] "libespeak-ng.so"

def demoFiles : List (FsPath × FileKind) :=
  [(demoLibLink, FileKind.symlink demoLibReal),
   (demoLibReal, FileKind.regular 42)]

def demoFind : String → Option FsPath := fun s =>
  if s = "libespeak-ng.so" then some demoLibLink else none

def demoWorld : World := startWorld demoFiles demoFind true 22050 0

/-- A successful construction on the demo system. -/
def demoInit : (Except PyError EspeakAPI) × World :=
  espeakAPIInit .posix "libespeak-ng.so" demoWorld

/-! ## Helper lemmas on the filesystem model -/

theorem lookupFiles_some_length_pos {files : List (FsPath × FileKind)}
    {p : FsPath} {k : FileKind} (h : lookupFiles files p = some k) :
    1 ≤ files.length := by
  cases files with
  | nil => simp [lookupFiles] at h
  | cons e es => simp

theorem resolveAux_of_regular {fs : Fs} {p : FsPath} {c : Nat}
    (h : fs.lookup p = some (.regular c)) :
    ∀ fuel, 1 ≤ fuel → Fs.resolveAux fuel fs p = some p := by
  intro fuel hfuel
  obtain ⟨f, rfl⟩ : ∃ f, fuel = f + 1 := ⟨fuel - 1, by omega⟩
  simp [Fs.resolveAux, h]

theorem resolveAux_of_symlink_regular {fs : Fs} {p0 p : FsPath} {c : Nat}
    (h0 : fs.lookup p0 = some (.symlink p))
    (h1 : fs.lookup p = some (.regular c)) :
    ∀ fuel, 2 ≤ fuel → Fs.resolveAux fuel fs p0 = some p := by
  intro fuel hfuel
  obtain ⟨f, rfl⟩ : ∃ f, fuel = f + 2 := ⟨fuel - 2, by omega⟩
  simp only [Fs.resolveAux, h0]
  exact resolveAux_of_regular h1 (f + 1) (by omega)

/-! ## Symbolic execution of one successful construction

The scenario: the loader finds `library` at an absolute path whose file
is regular (no symlink indirection), `dlinfo` works, the filesystem and
process are fresh.  The resulting equation exposes the complete final
world, from which the individual claims follow. -/

/-- The world after one construction from `startWorld` in the
regular-file scenario. -/
def worldAfterOneInit (files : List (FsPath × FileKind))
    (find : String → Option FsPath) (lib : String)
    (ds : List String) (fn : String) (c : Nat) (ir tr : Int) : World :=
  { startWorld files find true ir tr with
    fs := ⟨(FsPath.tmpfile 0 fn, FileKind.regular c) :: files, [0]⟩
    nextTmp := 1
    nextMod := 2
    modules :=
      [⟨1, FsPath.tmpfile 0 fn, FsPath.tmpfile 0 fn, ⟨true, false, none⟩⟩,
       ⟨0, FsPath.abs ds fn, FsPath.rel lib, EspeakState.fresh⟩]
    finalizers := [FinalizeCallback.boundMethod 0]
    objects := [(0, some 1)]
    trace := [FFICall.initCall 2 0 true 0] }

theorem espeakAPIInit_run_regular (files : List (FsPath × FileKind))
    (find : String → Option FsPath) (lib : String)
    (ds : List String) (fn : String) (c : Nat) (ir tr : Int)
    (hfind : find lib = some (FsPath.abs ds fn))
    (hlook : lookupFiles files (FsPath.abs ds fn) = some (FileKind.regular c)) :
    espeakAPIInit .posix lib (startWorld files find true ir tr) =
      ((if ir ≤ 0 then Except.error PyError.initializationError
        else Except.ok ⟨0, FsPath.abs ds fn⟩),
       worldAfterOneInit files find lib ds fn c ir tr) := by
  simp [espeakAPIInit, startWorld, loadLibraryByName, loadLibraryAt,
    sharedLibraryPath, dlinfoPath, shutilCopy, callEspeakInit,
    World.setObjLib, World.pushTrace, World.updateMod, Fs.pyResolve,
    Fs.lookup, Fs.resolveAux, FsPath.absolutize, FsPath.name,
    EspeakState.fresh, worldAfterOneInit, hfind, hlook, lookupFiles,
    List.find?, List.filter]
  split_ifs <;> rfl

/-- The world after a second construction (same library) in the same
process. -/
def worldAfterTwoInits (files : List (FsPath × FileKind))
    (find : String → Option FsPath) (lib : String)
    (ds : List String) (fn : String) (c : Nat) (ir tr : Int) : World :=
  { startWorld files find true ir tr with
    fs := ⟨(FsPath.tmpfile 1 fn, FileKind.regular c) ::
           (FsPath.tmpfile 0 fn, FileKind.regular c) :: files, [1, 0]⟩
    nextTmp := 2
    nextMod := 3
    modules :=
      [⟨2, FsPath.tmpfile 1 fn, FsPath.tmpfile 1 fn, ⟨true, false, none⟩⟩,
       ⟨1, FsPath.tmpfile 0 fn, FsPath.tmpfile 0 fn, ⟨true, false, none⟩⟩,
       ⟨0, FsPath.abs ds fn, FsPath.rel lib, EspeakState.fresh⟩]
    finalizers := [FinalizeCallback.boundMethod 1, FinalizeCallback.boundMethod 0]
    objects := [(1, some 2), (0, some 1)]
    trace := [FFICall.initCall 2 0 true 0, FFICall.initCall 2 0 true 0] }

theorem espeakAPIInit_run_regular_second (files : List (FsPath × FileKind))
    (find : String → Option FsPath) (lib : String)
    (ds : List String) (fn : String) (c : Nat) (ir tr : Int)
    (hfind : find lib = some (FsPath.abs ds fn))
    (hlook : lookupFiles files (FsPath.abs ds fn) = some (FileKind.regular c)) :
    espeakAPIInit .posix lib (worldAfterOneInit files find lib ds fn c ir tr) =
      ((if ir ≤ 0 then Except.error PyError.initializationError
        else Except.ok ⟨1, FsPath.abs ds fn⟩),
       worldAfterTwoInits files find lib ds fn c ir tr) := by
  simp [espeakAPIInit, startWorld, loadLibraryByName, loadLibraryAt,
    sharedLibraryPath, dlinfoPath, shutilCopy, callEspeakInit,
    World.setObjLib, World.pushTrace, World.updateMod, Fs.pyResolve,
    Fs.lookup, Fs.resolveAux, FsPath.absolutize, FsPath.name,
    EspeakState.fresh, worldAfterOneInit, worldAfterTwoInits, hfind, hlook,
    lookupFiles, List.find?, List.filter]
  split_ifs <;> rfl

/-! ## C1: isolation between two wrapper instances -/

/-- C1: Two wrapper instances constructed in the same process from the
same system library path have distinct private temporary directories and
distinct loaded module handles, and `set_voice_by_name` on one instance
leaves the result of `get_current_voice` on the other unchanged.
Scenario: a fresh process, the loader finds the library at an absolute
path holding a regular file, `dlinfo` works, and `espeak_Initialize`
succeeds (returns a positive sample rate). -/
theorem espeak_two_instances_isolated (files : List (FsPath × FileKind))
    (find : String → Option FsPath) (lib : String)
    (ds : List String) (fn : String) (c : Nat) (ir tr : Int)
    (hfind : find lib = some (FsPath.abs ds fn))
    (hlook : lookupFiles files (FsPath.abs ds fn) = some (FileKind.regular c))
    (hinit : 0 < ir) :
    ∃ a b : EspeakAPI,
      (espeakAPIInit .posix lib (startWorld files find true ir tr)).1 =
        Except.ok a ∧
      (espeakAPIInit .posix lib
        (espeakAPIInit .posix lib (startWorld files find true ir tr)).2).1 =
        Except.ok b ∧
      a.objId ≠ b.objId ∧
      (∃ ma mb : Nat,
        (espeakAPIInit .posix lib
          (espeakAPIInit .posix lib (startWorld files find true ir tr)).2).2.objLib
            a.objId = some ma ∧
        (espeakAPIInit .posix lib
          (espeakAPIInit .posix lib (startWorld files find true ir tr)).2).2.objLib
            b.objId = some mb ∧
        ma ≠ mb) ∧
      (∀ w2 wA wB : World,
        w2 = (espeakAPIInit .posix lib
          (espeakAPIInit .posix lib (startWorld files find true ir tr)).2).2 →
        wA = (EspeakAPI.set_voice_by_name w2 a.objId "en").2 →
        wB = (EspeakAPI.set_voice_by_name wA b.objId "fr").2 →
        (EspeakAPI.get_current_voice wB a.objId).1 =
          (EspeakAPI.get_current_voice wA a.objId).1 ∧
        (EspeakAPI.get_current_voice wB a.objId).1 =
          Except.ok (NativeRet.val "en")) := by
  have hni : ¬ ir ≤ 0 := not_le.mpr hinit
  have e1 := espeakAPIInit_run_regular files find lib ds fn c ir tr hfind hlook
  have e2 := espeakAPIInit_run_regular_second files find lib ds fn c ir tr hfind hlook
  have h1snd : (espeakAPIInit .posix lib (startWorld files find true ir tr)).2 =
      worldAfterOneInit files find lib ds fn c ir tr := by rw [e1]
  have h1fst : (espeakAPIInit .posix lib (startWorld files find true ir tr)).1 =
      Except.ok ⟨0, FsPath.abs ds fn⟩ := by rw [e1]; simp [hni]
  have h2snd : (espeakAPIInit .posix lib
      (espeakAPIInit .posix lib (startWorld files find true ir tr)).2).2 =
      worldAfterTwoInits files find lib ds fn c ir tr := by rw [h1snd, e2]
  have h2fst : (espeakAPIInit .posix lib
      (espeakAPIInit .posix lib (startWorld files find true ir tr)).2).1 =
      Except.ok ⟨1, FsPath.abs ds fn⟩ := by rw [h1snd, e2]; simp [hni]
  refine ⟨⟨0, FsPath.abs ds fn⟩, ⟨1, FsPath.abs ds fn⟩, h1fst, h2fst, by simp, ?_, ?_⟩
  · refine ⟨1, 2, ?_, ?_, by simp⟩ <;>
      rw [h2snd] <;>
      simp [worldAfterTwoInits, startWorld, World.objLib, List.find?]
  · intro w2 wA wB hw2 hwA hwB
    rw [h2snd] at hw2
    subst hw2
    subst hwA
    subst hwB
    constructor <;>
      simp [EspeakAPI.set_voice_by_name, EspeakAPI.get_current_voice,
        World.objLib, World.modState, World.findMod, World.updateMod,
        World.pushTrace, worldAfterTwoInits, startWorld, List.find?, List.filter]

/-- A loader configuration that finds the real library file directly. -/
def demoFindReal : String → Option FsPath := fun s =>
  if s = "libespeak-ng.so.1.1.51" then some demoLibReal else none

/-- Witness for `espeak_two_instances_isolated` on a concrete system. -/
theorem espeak_two_instances_isolated_witness :
    ∃ a b : EspeakAPI,
      (espeakAPIInit .posix "libespeak-ng.so.1.1.51"
        (startWorld demoFiles demoFindReal true 22050 0)).1 = Except.ok a ∧
      (espeakAPIInit .posix "libespeak-ng.so.1.1.51"
        (espeakAPIInit .posix "libespeak-ng.so.1.1.51"
          (startWorld demoFiles demoFindReal true 22050 0)).2).1 = Except.ok b ∧
      a.objId ≠ b.objId ∧
      (∃ ma mb : Nat,
        (espeakAPIInit .posix "libespeak-ng.so.1.1.51"
          (espeakAPIInit .posix "libespeak-ng.so.1.1.51"
            (startWorld demoFiles demoFindReal true 22050 0)).2).2.objLib
              a.objId = some ma ∧
        (espeakAPIInit .posix "libespeak-ng.so.1.1.51"
          (espeakAPIInit .posix "libespeak-ng.so.1.1.51"
            (startWorld demoFiles demoFindReal true 22050 0)).2).2.objLib
              b.objId = some mb ∧
        ma ≠ mb) ∧
      (∀ w2 wA wB : World,
        w2 = (espeakAPIInit .posix "libespeak-ng.so.1.1.51"
          (espeakAPIInit .posix "libespeak-ng.so.1.1.51"
            (startWorld demoFiles demoFindReal true 22050 0)).2).2 →
        wA = (EspeakAPI.set_voice_by_name w2 a.objId "en").2 →
        wB = (EspeakAPI.set_voice_by_name wA b.objId "fr").2 →
        (EspeakAPI.get_current_voice wB a.objId).1 =
          (EspeakAPI.get_current_voice wA a.objId).1 ∧
        (EspeakAPI.get_current_voice wB a.objId).1 =
          Except.ok (NativeRet.val "en")) :=
  espeak_two_instances_isolated demoFiles demoFindReal "libespeak-ng.so.1.1.51"
    ["usr", "lib"] "libespeak-ng.so.1.1.51" 42 22050 0 (by rfl) (by rfl)
    (by decide)

/-! ## C2: construction failure of the dynamic loader -/

/-- C2 counterexample: when the loader cannot open the named library the
constructor does raise the load error — but at the moment the error
surfaces to the caller the temporary directory created at the start of
construction still exists on disk.  This refutes the claim that the
temp directory "is removed before the error surfaces to the caller"
(the source raises inside `__init__` without any cleanup on that path;
cleanup is only performed by the registered finalizer, later). -/
theorem espeak_load_failure_tempdir_persists_at_raise :
    (espeakAPIInit .posix "nosuchlib" demoWorld).1 =
      Except.error PyError.loadError ∧
    (espeakAPIInit .posix "nosuchlib" demoWorld).2.fs.tmpdirExists 0 = true := by
  constructor <;> rfl

/-- C2 as amended: if the dynamic loader cannot open the named library,
construction fails with the load-error `RuntimeError` and no instance is
returned to the caller, but the temporary directory created at the start
of construction is NOT removed before the error surfaces: it still
exists when the constructor raises, and it is removed only later, when
the finalize callback registered at the start of construction runs (at
garbage collection of the failed instance or at interpreter exit). -/
theorem espeak_load_failure_typed_error_and_deferred_cleanup
    (files : List (FsPath × FileKind)) (find : String → Option FsPath)
    (dlOk : Bool) (ir tr : Int) (lib : String)
    (hfind : find lib = none) :
    (espeakAPIInit .posix lib (startWorld files find dlOk ir tr)).1 =
      Except.error PyError.loadError ∧
    (espeakAPIInit .posix lib (startWorld files find dlOk ir tr)).2.fs.tmpdirExists
      0 = true ∧
    (espeakAPIInit .posix lib (startWorld files find dlOk ir tr)).2.finalizers =
      [FinalizeCallback.boundMethod 0] ∧
    (runFinalizeCallback
      (espeakAPIInit .posix lib (startWorld files find dlOk ir tr)).2
      (FinalizeCallback.boundMethod 0)).fs.tmpdirExists 0 = false := by
  refine ⟨?_, ?_, ?_, ?_⟩ <;>
    simp [espeakAPIInit, startWorld, loadLibraryByName, World.setObjLib,
      hfind, runFinalizeCallback, espeakAPITerminate, World.objLib,
      callTerminate, rmtree, Fs.tmpdirExists, List.find?, List.filter]

/-- Witness for `espeak_load_failure_typed_error_and_deferred_cleanup`. -/
theorem espeak_load_failure_typed_error_and_deferred_cleanup_witness :
    (espeakAPIInit .posix "nosuchlib"
      (startWorld demoFiles demoFind true 22050 0)).1 =
      Except.error PyError.loadError ∧
    (espeakAPIInit .posix "nosuchlib"
      (startWorld demoFiles demoFind true 22050 0)).2.fs.tmpdirExists 0 = true ∧
    (espeakAPIInit .posix "nosuchlib"
      (startWorld demoFiles demoFind true 22050 0)).2.finalizers =
      [FinalizeCallback.boundMethod 0] ∧
    (runFinalizeCallback
      (espeakAPIInit .posix "nosuchlib"
        (startWorld demoFiles demoFind true 22050 0)).2
      (FinalizeCallback.boundMethod 0)).fs.tmpdirExists 0 = false :=
  espeak_load_failure_typed_error_and_deferred_cleanup demoFiles demoFind
    true 22050 0 "nosuchlib" (by rfl)

/-! ## C3: teardown always removes the temp directory -/

theorem lookup_rmtree_none (fs : Fs) (tid : Nat) (fname : String) :
    (rmtree fs tid).lookup (FsPath.tmpfile tid fname) = none := by
  simp only [rmtree, Fs.lookup]
  induction fs.files with
  | nil => rfl
  | cons e es ih =>
    obtain ⟨pe, ke⟩ := e
    cases pe with
    | tmpfile i g =>
      by_cases hi : i = tid
      · subst hi
        simpa [List.filter_cons, keepAfterRmtree, lookupFiles] using ih
      · simpa [List.filter_cons, keepAfterRmtree, lookupFiles, hi] using ih
    | abs dsx fx =>
      simpa [List.filter_cons, keepAfterRmtree, lookupFiles] using ih
    | tmpdir i =>
      simpa [List.filter_cons, keepAfterRmtree, lookupFiles] using ih
    | rel s =>
      simpa [List.filter_cons, keepAfterRmtree, lookupFiles] using ih

theorem tmpdirExists_rmtree (fs : Fs) (tid : Nat) :
    (rmtree fs tid).tmpdirExists tid = false := by
  simp [rmtree, Fs.tmpdirExists, List.elem_eq_mem, List.mem_filter]

/-- C3: for every process state and every instance, `_terminate` always
recursively removes the instance's private temporary directory — the
directory itself and every file below it are gone afterwards, and the
final filesystem is exactly `rmtree` of the previous one, independent of
the status the native `espeak_Terminate` call returns (the source
ignores it) and independent of whether `self._library` was ever set.
The embedding of `_terminate` is a total function into `World` — it has
no error outcome — mirroring that no failure of the native terminate
call can be raised out of the teardown path (the native call reports
failure only through its ignored status code). -/
theorem espeak_terminate_always_removes_tempdir (w : World) (tid : Nat) :
    (espeakAPITerminate w tid).fs = rmtree w.fs tid ∧
    (espeakAPITerminate w tid).fs.tmpdirExists tid = false ∧
    ∀ fname : String,
      (espeakAPITerminate w tid).fs.lookup (FsPath.tmpfile tid fname) = none := by
  have hfs : (espeakAPITerminate w tid).fs = rmtree w.fs tid := by
    cases h : w.objLib tid <;>
      simp [espeakAPITerminate, callTerminate, World.pushTrace,
        World.updateMod, h]
  refine ⟨hfs, ?_, ?_⟩
  · rw [hfs]; exact tmpdirExists_rmtree w.fs tid
  · intro fname; rw [hfs]; exact lookup_rmtree_none w.fs tid fname

/-! ## C4: the destruction hook registered at construction -/

/-- C4 (refuting the claim; the code contradicts the very design it
cites): `__init__` registers `weakref.finalize(self, self._terminate)`.
The callback is the *bound method* `self._terminate`, which owns a
strong reference to the instance; the finalize registry keeps the
callback alive until it runs, so the instance stays strongly reachable
from the registry and can never become unreachable before interpreter
exit.  The claim that the hook "captures only the library handle and
temp-directory path" and "retains no strong reference to the instance"
is false: on the concrete successful construction the registered hook is
the bound method, it captures the instance, and the instance is
reachable from the registry. -/
theorem espeak_finalizer_is_bound_method_capturing_instance :
    demoInit.2.finalizers = [FinalizeCallback.boundMethod 0] ∧
    FinalizeCallback.capturesInstance (FinalizeCallback.boundMethod 0) = true ∧
    instanceReachableFromRegistry demoInit.2 0 = true ∧
    (∀ f ∈ demoInit.2.finalizers,
      ∀ lib tempdir, f ≠ FinalizeCallback.captured lib tempdir) := by
  refine ⟨by rfl, by rfl, by rfl, ?_⟩
  intro f hf lib tempdir
  have : f = FinalizeCallback.boundMethod 0 := by
    have h : demoInit.2.finalizers = [FinalizeCallback.boundMethod 0] := by rfl
    rw [h] at hf
    simpa using hf
  subst this
  simp

/-! ## C5: the native initialization call -/

def isEspeakInitCall : FFICall → Bool
  | .initCall _ _ _ _ => true
  | _ => false

/-- C5: during a construction that reaches the initialization step (the
loader finds the library, `dlinfo` works, the copy succeeds), the native
`espeak_Initialize` entry point is called exactly once, with the fixed
arguments `(0x02, 0, None, 0)` (synchronous audio output, zero buffer
length, NULL path, zero options), and construction fails with the
initialization `RuntimeError` if and only if the returned value is
non-positive. -/
theorem espeak_init_called_once_fixed_args (files : List (FsPath × FileKind))
    (find : String → Option FsPath) (lib : String)
    (ds : List String) (fn : String) (c : Nat) (ir tr : Int)
    (hfind : find lib = some (FsPath.abs ds fn))
    (hlook : lookupFiles files (FsPath.abs ds fn) = some (FileKind.regular c)) :
    (espeakAPIInit .posix lib (startWorld files find true ir tr)).2.trace.filter
      isEspeakInitCall = [FFICall.initCall 2 0 true 0] ∧
    ((espeakAPIInit .posix lib (startWorld files find true ir tr)).1 =
      Except.error PyError.initializationError ↔ ir ≤ 0) := by
  rw [espeakAPIInit_run_regular files find lib ds fn c ir tr hfind hlook]
  constructor
  · simp [worldAfterOneInit, startWorld, isEspeakInitCall, List.filter]
  · by_cases h : ir ≤ 0 <;> simp [h]

/-- Witness for `espeak_init_called_once_fixed_args`. -/
theorem espeak_init_called_once_fixed_args_witness :
    (espeakAPIInit .posix "libespeak-ng.so.1.1.51"
      (startWorld demoFiles demoFindReal true 22050 0)).2.trace.filter
      isEspeakInitCall = [FFICall.initCall 2 0 true 0] ∧
    ((espeakAPIInit .posix "libespeak-ng.so.1.1.51"
      (startWorld demoFiles demoFindReal true 22050 0)).1 =
      Except.error PyError.initializationError ↔ (22050 : Int) ≤ 0) :=
  espeak_init_called_once_fixed_args demoFiles demoFindReal
    "libespeak-ng.so.1.1.51" ["usr", "lib"] "libespeak-ng.so.1.1.51" 42 22050 0
    (by rfl) (by rfl)

/-! ## C6: the private copy of the library -/

/-- The world after one construction from `startWorld` when the loader
found the library at `p0`, a symlink to the regular file
`FsPath.abs ds fn`. -/
def worldAfterOneInitSym (files : List (FsPath × FileKind))
    (find : String → Option FsPath) (lib : String) (p0 : FsPath)
    (_ds : List String) (fn : String) (c : Nat) (ir tr : Int) : World :=
  { startWorld files find true ir tr with
    fs := ⟨(FsPath.tmpfile 0 fn, FileKind.regular c) :: files, [0]⟩
    nextTmp := 1
    nextMod := 2
    modules :=
      [⟨1, FsPath.tmpfile 0 fn, FsPath.tmpfile 0 fn, ⟨true, false, none⟩⟩,
       ⟨0, p0, FsPath.rel lib, EspeakState.fresh⟩]
    finalizers := [FinalizeCallback.boundMethod 0]
    objects := [(0, some 1)]
    trace := [FFICall.initCall 2 0 true 0] }

theorem espeakAPIInit_run_symlink (files : List (FsPath × FileKind))
    (find : String → Option FsPath) (lib : String)
    (ds0 : List String) (g0 : String)
    (ds : List String) (fn : String) (c : Nat) (ir tr : Int)
    (hfind : find lib = some (FsPath.abs ds0 g0))
    (hlink : lookupFiles files (FsPath.abs ds0 g0) =
      some (FileKind.symlink (FsPath.abs ds fn)))
    (hlook : lookupFiles files (FsPath.abs ds fn) = some (FileKind.regular c)) :
    espeakAPIInit .posix lib (startWorld files find true ir tr) =
      ((if ir ≤ 0 then Except.error PyError.initializationError
        else Except.ok ⟨0, FsPath.abs ds fn⟩),
       worldAfterOneInitSym files find lib (FsPath.abs ds0 g0) ds fn c ir tr) := by
  have hlen : 1 ≤ files.length := lookupFiles_some_length_pos hlink
  have ha : Fs.resolveAux files.length ⟨files, [0]⟩ (FsPath.abs ds fn) =
      some (FsPath.abs ds fn) :=
    resolveAux_of_regular (by simpa [Fs.lookup] using hlook) files.length hlen
  simp [espeakAPIInit, startWorld, loadLibraryByName, loadLibraryAt,
    sharedLibraryPath, dlinfoPath, shutilCopy, callEspeakInit,
    World.setObjLib, World.pushTrace, World.updateMod, Fs.pyResolve,
    Fs.lookup, Fs.resolveAux, FsPath.absolutize, FsPath.name,
    EspeakState.fresh, worldAfterOneInitSym, hfind, hlink, hlook, ha,
    lookupFiles, List.find?, List.filter]
  split_ifs <;> rfl

/-- C6: when the loader finds the system library through a symbolic
link, the constructor resolves the link, copies the *target's bytes*
(not a redirected link) into the instance's private temp directory under
the resolved file's name, and the module it subsequently loads and
retains in `self._library` is exactly that copy; `self._library_path`
is the resolved original path. -/
theorem espeak_copy_is_resolved_target_bytes (files : List (FsPath × FileKind))
    (find : String → Option FsPath) (lib : String)
    (ds0 : List String) (g0 : String)
    (ds : List String) (fn : String) (c : Nat) (ir tr : Int)
    (hfind : find lib = some (FsPath.abs ds0 g0))
    (hlink : lookupFiles files (FsPath.abs ds0 g0) =
      some (FileKind.symlink (FsPath.abs ds fn)))
    (hlook : lookupFiles files (FsPath.abs ds fn) = some (FileKind.regular c))
    (hinit : 0 < ir) :
    ∃ inst : EspeakAPI,
      (espeakAPIInit .posix lib (startWorld files find true ir tr)).1 =
        Except.ok inst ∧
      inst.libraryPath = FsPath.abs ds fn ∧
      (espeakAPIInit .posix lib (startWorld files find true ir tr)).2.fs.lookup
        (FsPath.tmpfile inst.objId fn) = some (FileKind.regular c) ∧
      (∃ (mid : Nat) (m : DlModule),
        (espeakAPIInit .posix lib (startWorld files find true ir tr)).2.objLib
          inst.objId = some mid ∧
        (espeakAPIInit .posix lib (startWorld files find true ir tr)).2.findMod
          mid = some m ∧
        m.path = FsPath.tmpfile inst.objId fn) := by
  have hni : ¬ ir ≤ 0 := not_le.mpr hinit
  rw [espeakAPIInit_run_symlink files find lib ds0 g0 ds fn c ir tr hfind hlink
    hlook]
  refine ⟨⟨0, FsPath.abs ds fn⟩, by simp [hni], rfl, ?_, ?_⟩
  · simp [worldAfterOneInitSym, startWorld, Fs.lookup, lookupFiles]
  · refine ⟨1, ⟨1, FsPath.tmpfile 0 fn, FsPath.tmpfile 0 fn, ⟨true, false, none⟩⟩,
      ?_, ?_, rfl⟩ <;>
      simp [worldAfterOneInitSym, startWorld, World.objLib, World.findMod,
        List.find?]

/-- Witness for `espeak_copy_is_resolved_target_bytes`: on the demo
system the loader finds `libespeak-ng.so`, a symlink to
`libespeak-ng.so.1.1.51`. -/
theorem espeak_copy_is_resolved_target_bytes_witness :
    ∃ inst : EspeakAPI,
      (espeakAPIInit .posix "libespeak-ng.so"
        (startWorld demoFiles demoFind true 22050 0)).1 = Except.ok inst ∧
      inst.libraryPath = FsPath.abs ["usr", "lib"] "libespeak-ng.so.1.1.51" ∧
      (espeakAPIInit .posix "libespeak-ng.so"
        (startWorld demoFiles demoFind true 22050 0)).2.fs.lookup
        (FsPath.tmpfile inst.objId "libespeak-ng.so.1.1.51") =
          some (FileKind.regular 42) ∧
      (∃ (mid : Nat) (m : DlModule),
        (espeakAPIInit .posix "libespeak-ng.so"
          (startWorld demoFiles demoFind true 22050 0)).2.objLib
          inst.objId = some mid ∧
        (espeakAPIInit .posix "libespeak-ng.so"
          (startWorld demoFiles demoFind true 22050 0)).2.findMod
          mid = some m ∧
        m.path = FsPath.tmpfile inst.objId "libespeak-ng.so.1.1.51") :=
  espeak_copy_is_resolved_target_bytes demoFiles demoFind "libespeak-ng.so"
    ["usr", "lib"] "libespeak-ng.so" ["usr", "lib"] "libespeak-ng.so.1.1.51"
    42 22050 0 (by rfl) (by rfl) (by rfl) (by decide)

/-! ## C7: `_shared_library_path` platform contract -/

theorem absolutize_isAbsolute (p : FsPath) :
    (FsPath.absolutize p).isAbsolute = true := by
  cases p <;> rfl

theorem pyResolve_isAbsolute (fs : Fs) (p : FsPath) :
    (fs.pyResolve p).isAbsolute = true := by
  unfold Fs.pyResolve
  split <;> exact absolutize_isAbsolute _

/-- C7: `_shared_library_path` resolves the handle's `_name` field on
Windows and the dynamic linker's loaded-object metadata (`dlinfo`) on
POSIX; any result it returns is an absolute path, and the only error it
can signal is the path-resolution `RuntimeError` (on POSIX, exactly when
the `dlinfo` introspection fails; on Windows the branch performs no
fallible platform call — the `_name` attribute always exists and
non-strict `Path.resolve()` is total — so no error can arise there). -/
theorem espeak_shared_library_path_platform_contract :
    (∀ (w : World) (m : DlModule),
      sharedLibraryPath .win32 w m = Except.ok (w.fs.pyResolve m.loadName)) ∧
    (∀ (w : World) (m : DlModule),
      sharedLibraryPath .posix w m =
        if w.dlinfoOk then Except.ok (w.fs.pyResolve m.path)
        else Except.error PyError.pathResolutionError) ∧
    (∀ (fs : Fs) (p : FsPath), (fs.pyResolve p).isAbsolute = true) ∧
    (∀ (platform : Platform) (w : World) (m : DlModule),
      sharedLibraryPath platform w m = Except.error PyError.pathResolutionError ∨
      ∃ p : FsPath, sharedLibraryPath platform w m = Except.ok p ∧
        p.isAbsolute = true) := by
  refine ⟨fun w m => rfl, ?_, pyResolve_isAbsolute, ?_⟩
  · intro w m
    by_cases h : w.dlinfoOk <;>
      simp [sharedLibraryPath, dlinfoPath, h]
  · intro platform w m
    cases platform with
    | win32 =>
      exact Or.inr ⟨_, rfl, pyResolve_isAbsolute _ _⟩
    | posix =>
      by_cases h : w.dlinfoOk
      · refine Or.inr ⟨w.fs.pyResolve m.path, ?_, pyResolve_isAbsolute _ _⟩
        simp [sharedLibraryPath, dlinfoPath, h]
      · refine Or.inl ?_
        simp [sharedLibraryPath, dlinfoPath, h]

/-! ## C8: calls after teardown -/

/-- C8 counterexample: on a concrete instance whose teardown has run,
`set_voice_by_name` does NOT fail with a typed error — the wrapper
performs no liveness check, forwards the call to the still-loaded (but
terminated) native module, and the call reaches the native entry point
(visible in the trace).  This refutes the claim that every post-teardown
call "fails deterministically with a typed error". -/
theorem espeak_post_teardown_call_not_guarded_cex :
    (EspeakAPI.set_voice_by_name (espeakAPITerminate demoInit.2 0) 0 "en").1 =
      Except.ok NativeRet.undef ∧
    (EspeakAPI.set_voice_by_name (espeakAPITerminate demoInit.2 0) 0 "en").2.trace =
      [FFICall.initCall 2 0 true 0, FFICall.terminate,
       FFICall.setVoiceByName "en"] := by
  constructor <;> rfl

/-- C8 as amended: for every wrapper instance on which teardown has
already run (`_library` still set, module marked terminated), every
subsequent low-level method call is forwarded unguarded to the
terminated native module: the wrapper raises no typed error, the native
entry point is invoked (appended to the trace), and what happens then is
undefined behavior of the native library (`NativeRet.undef`), possibly a
crash.  (`synthetize` is listed with a `None` mode: with an integer mode
it fails on `ctypes` marshaling before any native call, independently of
teardown.) -/
theorem espeak_post_teardown_calls_forwarded_unguarded
    (w : World) (tid mid : Nat)
    (hlib : w.objLib tid = some mid)
    (hterm : (w.modState mid).terminated = true) :
    ((EspeakAPI.info w tid).1 = Except.ok NativeRet.undef ∧
      (EspeakAPI.info w tid).2.trace = w.trace ++ [FFICall.info]) ∧
    ((EspeakAPI.list_voices w tid none).1 = Except.ok NativeRet.undef ∧
      (EspeakAPI.list_voices w tid none).2.trace =
        w.trace ++ [FFICall.listVoices]) ∧
    (∀ name : String,
      (EspeakAPI.set_voice_by_name w tid name).1 = Except.ok NativeRet.undef ∧
      (EspeakAPI.set_voice_by_name w tid name).2.trace =
        w.trace ++ [FFICall.setVoiceByName name]) ∧
    ((EspeakAPI.get_current_voice w tid).1 = Except.ok NativeRet.undef ∧
      (EspeakAPI.get_current_voice w tid).2.trace =
        w.trace ++ [FFICall.getCurrentVoice]) ∧
    (∀ (tp : PyArg) (tm pm : Int),
      (EspeakAPI.text_to_phonemes w tid tp tm pm).1 =
        Except.ok NativeRet.undef ∧
      (EspeakAPI.text_to_phonemes w tid tp tm pm).2.trace =
        w.trace ++ [FFICall.textToPhonemes tm pm]) ∧
    (∀ (mode : Int) (fp : PyArg),
      (EspeakAPI.set_phoneme_trace w tid mode fp).1 =
        Except.ok NativeRet.undef ∧
      (EspeakAPI.set_phoneme_trace w tid mode fp).2.trace =
        w.trace ++ [FFICall.setPhonemeTrace mode]) ∧
    (∀ (text : PyArg) (size : Int),
      (EspeakAPI.synthetize w tid text size PyArg.pyNone).1 =
        Except.ok NativeRet.undef) := by
  have hpt : ∀ c : FFICall, (w.pushTrace c).modState mid = w.modState mid :=
    fun _ => rfl
  have htr : ∀ c : FFICall, (w.pushTrace c).trace = w.trace ++ [c] :=
    fun _ => rfl
  refine ⟨⟨?_, ?_⟩, ⟨?_, ?_⟩, fun name => ⟨?_, ?_⟩, ⟨?_, ?_⟩,
    fun tp tm pm => ⟨?_, ?_⟩, fun mode fp => ⟨?_, ?_⟩, fun text size => ?_⟩ <;>
    simp [EspeakAPI.info, EspeakAPI.list_voices, EspeakAPI.set_voice_by_name,
      EspeakAPI.get_current_voice, EspeakAPI.text_to_phonemes,
      EspeakAPI.set_phoneme_trace, EspeakAPI.synthetize,
      hlib, hterm, hpt, htr, marshalOk, synthArgtypes, ctypesAccepts,
      ctypesDefaultAccepts]

/-- Witness for `espeak_post_teardown_calls_forwarded_unguarded` on the
concrete torn-down demo instance. -/
theorem espeak_post_teardown_calls_forwarded_unguarded_witness :
    ((EspeakAPI.info (espeakAPITerminate demoInit.2 0) 0).1 =
        Except.ok NativeRet.undef ∧
      (EspeakAPI.info (espeakAPITerminate demoInit.2 0) 0).2.trace =
        (espeakAPITerminate demoInit.2 0).trace ++ [FFICall.info]) ∧
    ((EspeakAPI.list_voices (espeakAPITerminate demoInit.2 0) 0 none).1 =
        Except.ok NativeRet.undef ∧
      (EspeakAPI.list_voices (espeakAPITerminate demoInit.2 0) 0 none).2.trace =
        (espeakAPITerminate demoInit.2 0).trace ++ [FFICall.listVoices]) ∧
    (∀ name : String,
      (EspeakAPI.set_voice_by_name (espeakAPITerminate demoInit.2 0) 0 name).1 =
        Except.ok NativeRet.undef ∧
      (EspeakAPI.set_voice_by_name
        (espeakAPITerminate demoInit.2 0) 0 name).2.trace =
        (espeakAPITerminate demoInit.2 0).trace ++
          [FFICall.setVoiceByName name]) ∧
    ((EspeakAPI.get_current_voice (espeakAPITerminate demoInit.2 0) 0).1 =
        Except.ok NativeRet.undef ∧
      (EspeakAPI.get_current_voice
        (espeakAPITerminate demoInit.2 0) 0).2.trace =
        (espeakAPITerminate demoInit.2 0).trace ++
          [FFICall.getCurrentVoice]) ∧
    (∀ (tp : PyArg) (tm pm : Int),
      (EspeakAPI.text_to_phonemes
        (espeakAPITerminate demoInit.2 0) 0 tp tm pm).1 =
        Except.ok NativeRet.undef ∧
      (EspeakAPI.text_to_phonemes
        (espeakAPITerminate demoInit.2 0) 0 tp tm pm).2.trace =
        (espeakAPITerminate demoInit.2 0).trace ++
          [FFICall.textToPhonemes tm pm]) ∧
    (∀ (mode : Int) (fp : PyArg),
      (EspeakAPI.set_phoneme_trace
        (espeakAPITerminate demoInit.2 0) 0 mode fp).1 =
        Except.ok NativeRet.undef ∧
      (EspeakAPI.set_phoneme_trace
        (espeakAPITerminate demoInit.2 0) 0 mode fp).2.trace =
        (espeakAPITerminate demoInit.2 0).trace ++
          [FFICall.setPhonemeTrace mode]) ∧
    (∀ (text : PyArg) (size : Int),
      (EspeakAPI.synthetize
        (espeakAPITerminate demoInit.2 0) 0 text size PyArg.pyNone).1 =
        Except.ok NativeRet.undef) :=
  espeak_post_teardown_calls_forwarded_unguarded
    (espeakAPITerminate demoInit.2 0) 0 1 (by rfl) (by rfl)

/-! ## C9: `synthetize` never reaches the native entry point -/

/-- C9 (refuting the claim; the `argtypes` list is a slip): the
`argtypes` list assigned in `synthetize` has 7 entries — the `c_uint`
for the `flags` parameter of `espeak_Synth` is missing — while the call
site passes 8 arguments, so the 6th argument `mode` is converted against
`POINTER(c_uint)`.  `ctypes` rejects a plain integer there
(`ArgumentError: argument 6: TypeError: expected LP_c_uint instance
instead of int`), raised during marshaling, *before* any foreign call.
Hence for every integer `mode`, `synthetize` raises `ArgumentError`, the
native synthesis entry point is never invoked (the world — including the
foreign-call trace — is unchanged), and no native status is returned. -/
theorem espeak_synthetize_argument_error_before_native_call :
    ∀ (text : PyArg) (size mode : Int),
      (EspeakAPI.synthetize demoInit.2 0 text size (PyArg.pyInt mode)).1 =
        Except.error PyError.argumentError ∧
      (EspeakAPI.synthetize demoInit.2 0 text size (PyArg.pyInt mode)).2 =
        demoInit.2 := by
  intro text size mode
  exact ⟨rfl, rfl⟩

/-! ## C10: `get_current_voice` dereferences unconditionally -/

/-- C10: `get_current_voice` returns
`f_get_current_voice().contents` — an unconditional dereference of the
pointer returned by the native current-voice query.  For every live
instance on which the native function returns a NULL pointer, the
`.contents` access raises `ValueError: NULL pointer access` instead of
returning a voice descriptor, so no descriptor data derived from a NULL
pointer can ever be returned. -/
theorem espeak_get_current_voice_null_deref (w : World) (tid mid : Nat)
    (hlib : w.objLib tid = some mid)
    (hterm : (w.modState mid).terminated = false)
    (hnull : (w.modState mid).voice = none) :
    (EspeakAPI.get_current_voice w tid).1 =
      Except.error PyError.nullPointerAccess := by
  have hpt : ∀ c : FFICall, (w.pushTrace c).modState mid = w.modState mid :=
    fun _ => rfl
  simp [EspeakAPI.get_current_voice, hlib, hterm, hnull, hpt]

/-- Witness for `espeak_get_current_voice_null_deref`: on the freshly
constructed demo instance no voice has been selected yet, so the native
pointer is NULL and the call raises. -/
theorem espeak_get_current_voice_null_deref_witness :
    (EspeakAPI.get_current_voice demoInit.2 0).1 =
      Except.error PyError.nullPointerAccess :=
  espeak_get_current_voice_null_deref demoInit.2 0 1 (by rfl) (by rfl) (by rfl)
